import Mathlib

/-!
Shallow embedding of the LangGraph lead-qualification workflow of this
repository (`src/graph/workflow.ts`, lead-qualification variant, together
with the extended state channels of `src/graph/state.ts`, the variant with
`interestScore` / `contactInfo` / `collectingContact` / `appendMessage`).

External capabilities (the vector-store retriever, the chat LLM, `JSON.parse`
of the matched score object, and the Slack webhook) are modelled as abstract
per-run outcomes.  Everything the workflow itself computes — the state
reducers, every node's branching, the JavaScript regular expressions used for
contact extraction and score extraction, and the two routing functions — is
embedded concretely.
-/

namespace LeadBot

set_option maxRecDepth 65536

/-- Message role, the value of `msg._getType()`: `"human"` or `"ai"`. -/
inductive Role where
  | human : Role
  | ai : Role
deriving DecidableEq, Repr

/-- One conversation message (`BaseMessage`: a role tag plus text content). -/
structure Message where
  role : Role
  content : String
deriving DecidableEq, Repr

/-- One retrieved document: `pageContent` plus the metadata fields the
generator reads (`metadata.title`, `metadata.url`, `metadata.source`). -/
structure Document where
  pageContent : String
  title : Option String := none
  url : Option String := none
  source : Option String := none
deriving DecidableEq, Repr

/-- A JavaScript number as the interest-score pipeline observes it: an
integer value or NaN.  `Math.max`/`Math.min` propagate NaN, and every
numeric comparison involving NaN is false. -/
inductive JsNum where
  | num (v : Int) : JsNum
  | nan : JsNum
deriving DecidableEq, Repr

/-- JavaScript `Math.max` on two such numbers: NaN when either side is NaN. -/
def jsMax : JsNum → JsNum → JsNum
  | .num a, .num b => .num (max a b)
  | _, _ => .nan

/-- JavaScript `Math.min` on two such numbers: NaN when either side is NaN. -/
def jsMin : JsNum → JsNum → JsNum
  | .num a, .num b => .num (min a b)
  | _, _ => .nan

/-- JavaScript `x >= b` for an integer bound: false when `x` is NaN. -/
def jsGe (x : JsNum) (b : Int) : Bool :=
  match x with
  | .num v => decide (b ≤ v)
  | .nan => false

/-- The integer value of a number, `none` for NaN. -/
def JsNum.toInt? : JsNum → Option Int
  | .num v => some v
  | .nan => none

/-- The `contactInfo` record of `state.ts`:
`{name?: string; email?: string; company?: string; collected: boolean}`. -/
structure ContactInfo where
  name : Option String := none
  email : Option String := none
  company : Option String := none
  collected : Bool
deriving DecidableEq, Repr

/-- The graph state of `state.ts` (`GraphState = Annotation.Root {...}`),
with every channel at its concrete value. -/
structure GraphState where
  messages : List Message
  retrievedDocs : List Document
  answer : String
  errors : List String
  interestScore : JsNum
  contactInfo : ContactInfo
  collectingContact : Bool
  appendMessage : String
deriving DecidableEq, Repr

/-- The default state (`default: () => ...` of every channel). -/
def GraphState.init : GraphState :=
  { messages := []
    retrievedDocs := []
    answer := ""
    errors := []
    interestScore := JsNum.num 0
    contactInfo := { collected := false }
    collectingContact := false
    appendMessage := "" }

/-- A node's returned object `Partial<GraphStateType>`: a channel is `none`
(for the scalar channels) or `[]` (for the concatenated channels) exactly
when the key is absent from the returned object, in which case LangGraph
leaves that channel untouched. -/
structure Update where
  messages : List Message := []
  retrievedDocs : Option (List Document) := none
  answer : Option String := none
  errors : List String := []
  interestScore : Option JsNum := none
  contactInfo : Option ContactInfo := none
  collectingContact : Option Bool := none
  appendMessage : Option String := none
deriving DecidableEq, Repr

/-- The empty update `{}`. -/
def Update.empty : Update := {}

/-- The per-channel reducers of `state.ts` applied to one returned update:
`messages`/`errors` concatenate, `interestScore` keeps
`Math.max(current, update)` when the key is present, every other channel is
replaced when its key is present. -/
def applyUpdate (s : GraphState) (u : Update) : GraphState :=
  { messages := s.messages ++ u.messages
    retrievedDocs := u.retrievedDocs.getD s.retrievedDocs
    answer := u.answer.getD s.answer
    errors := s.errors ++ u.errors
    interestScore :=
      match u.interestScore with
      | none => s.interestScore
      | some v => jsMax s.interestScore v
    contactInfo := u.contactInfo.getD s.contactInfo
    collectingContact := u.collectingContact.getD s.collectingContact
    appendMessage := u.appendMessage.getD s.appendMessage }

/-!
A small backtracking regular-expression engine with JavaScript semantics:
leftmost starting position wins; alternation prefers the left branch; greedy
quantifiers try longer matches first, lazy quantifiers shorter ones; a
quantified body must consume at least one character per iteration.  This is
exactly enough to embed the four regex literals of `workflow.ts`.
-/

/-- Regular expressions: character classes, sequencing, ordered alternation,
greedy/lazy star, numbered capture groups and the end anchor `$`. -/
inductive Regex where
  | eps : Regex
  | cls : (Char → Bool) → Regex
  | seq : Regex → Regex → Regex
  | alt : Regex → Regex → Regex
  | star : Regex → Bool → Regex
  | group : Nat → Regex → Regex
  | eos : Regex

/-- Captured groups: group number paired with the captured text. -/
def Caps := List (Nat × String)

/-- Fuel-bounded backtracking matcher in continuation-passing style.  The
`star` case only recurses when the body consumed at least one character,
mirroring the JavaScript engine's empty-iteration cut.  The lazy flag being
true tries the continuation before another iteration. -/
def mrun : Nat → Regex → List Char → Caps →
    (List Char → Caps → Option (List Char × Caps)) → Option (List Char × Caps)
  | 0, _, _, _, _ => none
  | _ + 1, .eps, s, c, k => k s c
  | _ + 1, .cls p, s, c, k =>
    match s with
    | [] => none
    | ch :: rest => if p ch then k rest c else none
  | n + 1, .seq a b, s, c, k =>
    mrun n a s c fun s1 c1 => mrun n b s1 c1 k
  | n + 1, .alt a b, s, c, k =>
    match mrun n a s c k with
    | some res => some res
    | none => mrun n b s c k
  | n + 1, .star r lz, s, c, k =>
    if lz then
      match k s c with
      | some res => some res
      | none =>
        mrun n r s c fun s1 c1 =>
          if s1.length < s.length then mrun n (.star r lz) s1 c1 k else none
    else
      match
        mrun n r s c fun s1 c1 =>
          if s1.length < s.length then mrun n (.star r lz) s1 c1 k else none
      with
      | some res => some res
      | none => k s c
  | n + 1, .group i r, s, c, k =>
    mrun n r s c fun s1 c1 =>
      k s1 ((i, String.mk (s.take (s.length - s1.length))) :: c1)
  | _ + 1, .eos, s, c, k => if s.isEmpty then k s c else none

/-- Fuel that comfortably bounds the backtracking depth of the fixed regexes
of `workflow.ts` on a given suffix. -/
def regexFuel (s : List Char) : Nat := 400 * (s.length + 2)

/-- Attempt a match anchored at the head of `s` (whole-match text and
captures). -/
def matchHere (r : Regex) (s : List Char) : Option (String × Caps) :=
  match mrun (regexFuel s) r s [] (fun rest caps => some (rest, caps)) with
  | some (rest, caps) =>
    some (String.mk (s.take (s.length - rest.length)), caps)
  | none => none

/-- JavaScript `string.match(re)` without the `g` flag: the match at the
leftmost starting position. -/
def jsMatch (r : Regex) : List Char → Option (String × Caps)
  | [] => matchHere r []
  | s@(_ :: t) =>
    match matchHere r s with
    | some res => some res
    | none => jsMatch r t

/-- The whole matched text, `match[0]`. -/
def matchG0 (r : Regex) (s : String) : Option String :=
  (jsMatch r s.toList).map (·.1)

/-- The first capture group's text, `match[1]`. -/
def matchG1 (r : Regex) (s : String) : Option String :=
  (jsMatch r s.toList).bind fun res => res.2.lookup 1

/-- One-or-more, greedy (`x+`). -/
def Regex.plus (r : Regex) : Regex := .seq r (.star r false)

/-- One-or-more, lazy (`x+?`). -/
def Regex.lazyPlus (r : Regex) : Regex := .seq r (.star r true)

/-- Case-insensitive literal text (the `i` flag applied to a literal). -/
def istr (t : String) : Regex :=
  t.toList.foldr (fun ch r => .seq (.cls fun c => c.toLower == ch.toLower) r) .eps

/-- Case-sensitive literal text. -/
def cstr (t : String) : Regex :=
  t.toList.foldr (fun ch r => .seq (.cls fun c => c == ch) r) .eps

/-- JavaScript `\s` restricted to its ASCII members (space, tab, newline,
carriage return, vertical tab, form feed); the conversation strings involved
contain no other whitespace. -/
def jsWhitespace (c : Char) : Bool :=
  c == ' ' || c == '\t' || c == '\n' || c == '\r' || c == '\x0b' || c == '\x0c'

/-- JavaScript `String.prototype.trim` over that whitespace. -/
def jsTrim (s : String) : String :=
  String.mk (((s.toList.dropWhile jsWhitespace).reverse.dropWhile jsWhitespace).reverse)

/-- The email pattern of the contact collector,
`/[A-Za-z0-9._%+-]+@[A-Za-z0-9.-]+\.[A-Za-z]{2,}/i`. -/
def emailRe : Regex :=
  .seq (.plus (.cls fun c =>
      c.isAlpha || c.isDigit || c == '.' || c == '_' || c == '%' || c == '+' || c == '-'))
    (.seq (.cls fun c => c == '@')
      (.seq (.plus (.cls fun c => c.isAlpha || c.isDigit || c == '.' || c == '-'))
        (.seq (.cls fun c => c == '.')
          (.seq (.cls Char.isAlpha)
            (.seq (.cls Char.isAlpha) (.star (.cls Char.isAlpha) false))))))

/-- The name pattern of the contact collector,
`/(?:my name is|i'm|i am|name[:\s]+)([a-z\s]+)/i`. -/
def nameRe : Regex :=
  .seq
    (.alt (istr "my name is")
      (.alt (istr "i'm")
        (.alt (istr "i am")
          (.seq (istr "name") (.plus (.cls fun c => c == ':' || jsWhitespace c))))))
    (.group 1 (.plus (.cls fun c => c.isAlpha || jsWhitespace c)))

/-- The company pattern of the contact collector,
`/(?:from|at|work at|company|for)[:\s]+([a-z0-9\s&.,'-]+?)(?:\s+and|\s+my|\s*$)/i`. -/
def companyRe : Regex :=
  .seq
    (.alt (istr "from")
      (.alt (istr "at")
        (.alt (istr "work at") (.alt (istr "company") (istr "for")))))
    (.seq (.plus (.cls fun c => c == ':' || jsWhitespace c))
      (.seq
        (.group 1 (.lazyPlus (.cls fun c =>
          c.isAlpha || c.isDigit || jsWhitespace c ||
            c == '&' || c == '.' || c == ',' || c == '\'' || c == '-')))
        (.alt (.seq (.plus (.cls jsWhitespace)) (istr "and"))
          (.alt (.seq (.plus (.cls jsWhitespace)) (istr "my"))
            (.seq (.star (.cls jsWhitespace) false) .eos)))))

/-- The score-object pattern of the interest evaluator,
`/\{[\s\S]*?"score"[\s\S]*?\}/` (no `i` flag; `[\s\S]` matches anything). -/
def scoreJsonRe : Regex :=
  .seq (.cls fun c => c == '{')
    (.seq (.star (.cls fun _ => true) true)
      (.seq (cstr "\"score\"")
        (.seq (.star (.cls fun _ => true) true) (.cls fun c => c == '}'))))

/-!
String helpers used by the nodes.
-/

/-- Whether the needle starts at the head of the haystack. -/
def headSeg : List Char → List Char → Bool
  | [], _ => true
  | _ :: _, [] => false
  | a :: as, b :: bs => a == b && headSeg as bs

/-- Whether the needle occurs anywhere in the haystack. -/
def hasSeg (n : List Char) : List Char → Bool
  | [] => headSeg n []
  | h@(_ :: t) => headSeg n h || hasSeg n t

/-- JavaScript `haystack.includes(needle)`. -/
def strIncludes (h n : String) : Bool := hasSeg n.toList h.toList

/-!
The five nodes of `createWorkflow`.  Each is the exact branching of its
`workflow.ts` body; an `Except String` argument stands for the awaited
outcome of the node's external call (`.error e` being a thrown error whose
`.message` is `e`).
-/

/-- Message of the TypeError raised by reading `.content` of
`state.messages[state.messages.length - 1]` when `messages` is empty. -/
def undefinedContentMsg : String :=
  "Cannot read properties of undefined (reading 'content')"

/-- Retriever node (`workflow.ts` lines 21-51): query is the last message's
content (throwing into the catch when no message exists), the retriever is
invoked, empty results or a thrown error yield `retrievedDocs = []` plus one
error string. -/
def retrieverNode (s : GraphState) (retrieval : Except String (List Document)) :
    Update :=
  match s.messages.getLast? with
  | none =>
    { retrievedDocs := some [],
      errors := ["Retrieval failed: " ++ undefinedContentMsg] }
  | some _ =>
    match retrieval with
    | .error e =>
      { retrievedDocs := some [], errors := ["Retrieval failed: " ++ e] }
    | .ok docs =>
      if docs.length == 0 then
        { retrievedDocs := some [], errors := ["No relevant documents found"] }
      else
        { retrievedDocs := some docs }

/-- JavaScript `Math.max(0, Math.min(10, score))` on the parsed score:
NaN propagates through both. -/
def clampScore (sc : JsNum) : JsNum := jsMax (.num 0) (jsMin (.num 10) sc)

/-- Interest evaluator node (`workflow.ts` lines 54-123): skip while
collecting contact, score 0 below 3 messages, otherwise invoke the LLM,
extract the first `{..."score"...}` object, parse it and clamp its score
with `Math.max(0, Math.min(10, result.score))`; an invocation error, a
missing regex match or a throwing `JSON.parse` yields score 0.  `parse`
abstracts `JSON.parse` on the matched substring together with the numeric
coercion `Math.min` applies to `result.score`: `none` when `JSON.parse`
throws, `some (JsNum.num v)` when the parsed object's `score` coerces to
the number `v`, and `some JsNum.nan` when it coerces to NaN (a non-numeric
string, a missing property, and so on) — in that case the clamp evaluates
to NaN and the node returns `interestScore = NaN`. -/
def interestEvaluatorNode (s : GraphState) (llm : Except String String)
    (parse : String → Option JsNum) : Update :=
  if s.collectingContact then Update.empty
  else if s.messages.length < 3 then { interestScore := some (JsNum.num 0) }
  else
    match llm with
    | .error _ => { interestScore := some (JsNum.num 0) }
    | .ok content =>
      match matchG0 scoreJsonRe content with
      | none => { interestScore := some (JsNum.num 0) }
      | some j =>
        match parse j with
        | none => { interestScore := some (JsNum.num 0) }
        | some sc => { interestScore := some (clampScore sc) }

/-- Content of the most recent `human` message, or `""` when none exists
(`state.messages.slice().reverse().find(m => m._getType() === "human")
?.content.toString() || ""`). -/
def lastUserMessage (s : GraphState) : String :=
  ((s.messages.reverse.find? fun m => m.role == Role.human).map
    Message.content).getD ""

/-- Thank-you text appended after contact info is captured; personalized
when the extracted name is truthy (non-empty). -/
def thankYouMessage (name : Option String) : String :=
  "\n\n---\n\nThank you" ++
    (match name with
     | some n => if n == "" then "" else " " ++ n
     | none => "") ++
    "! I've noted your contact information. Our team will reach out to you shortly to discuss how Botpress can help with your chatbot needs."

/-- Contact-request text; asks for the company name too when any message so
far mentions `company` or `business`. -/
def contactRequestMessage (s : GraphState) : String :=
  "\n\n---\n\nI can see you're interested in Botpress! I'd love to connect you with our team to discuss your specific needs. Could you share your email address" ++
    (if s.messages.any fun m =>
        strIncludes m.content "company" || strIncludes m.content "business"
     then " and company name" else "") ++ "?"

/-- Contact collector node (`workflow.ts` lines 126-181): scan the last user
message for an email; on a hit record `contactInfo` (with optional
trimmed name and company), end collecting mode and queue the thank-you; on a
miss start collecting mode with a request unless already collecting; a
thrown scanning error (abstracted by `scanFail`) is caught and resets
`collectingContact` to false. -/
def contactCollectorNode (s : GraphState) (scanFail : Option String) : Update :=
  match scanFail with
  | some _ => { collectingContact := some false }
  | none =>
    let lastUser := lastUserMessage s
    match matchG0 emailRe lastUser with
    | some email =>
      let name := (matchG1 nameRe lastUser).map jsTrim
      let company := (matchG1 companyRe lastUser).map jsTrim
      { contactInfo := some
          { name := name, email := some email, company := company,
            collected := true },
        collectingContact := some false,
        appendMessage := some (thankYouMessage name) }
    | none =>
      if !s.collectingContact then
        { collectingContact := some true,
          appendMessage := some (contactRequestMessage s) }
      else Update.empty

/-- Slack notifier node (`workflow.ts` lines 184-248): every exit — contact
not collected, webhook unconfigured, POST completed or failed, error thrown
— returns the empty update; the boolean reports whether the webhook POST was
attempted (`contactInfo.collected` and a configured URL). -/
def slackNotifierNode (s : GraphState) (webhook : Option String) :
    Update × Bool :=
  if s.contactInfo.collected then
    match webhook with
    | none => (Update.empty, false)
    | some _ => (Update.empty, true)
  else (Update.empty, false)

/-- The fixed apology answer of the generator's catch branch. -/
def apologyAnswer : String :=
  "I apologize, but I encountered an error while processing your request. Please try again."

/-- Generator node (`workflow.ts` lines 251-334): the query is the last
message's content (throwing into the catch when no message exists), the LLM
chain produces the answer, a truthy `appendMessage` is suffixed blank-line
separated and then cleared; the catch substitutes the apology as answer and
appended AI message plus an error record. -/
def generatorNode (s : GraphState) (llm : Except String String) : Update :=
  match s.messages.getLast? with
  | none =>
    { answer := some apologyAnswer,
      messages := [{ role := Role.ai, content := apologyAnswer }],
      errors := ["Generation failed: " ++ undefinedContentMsg] }
  | some _ =>
    match llm with
    | .error e =>
      { answer := some apologyAnswer,
        messages := [{ role := Role.ai, content := apologyAnswer }],
        errors := ["Generation failed: " ++ e] }
    | .ok answer =>
      let finalAnswer :=
        if s.appendMessage == "" then answer
        else answer ++ "\n\n" ++ s.appendMessage
      { answer := some finalAnswer,
        messages := [{ role := Role.ai, content := finalAnswer }],
        appendMessage := some "" }

/-!
The routing functions and the full graph run
(`__start__ → retriever → interest_evaluator →(route)→ [contact_collector →]
generator →(route)→ [slack_notifier →] __end__`).
-/

/-- Router after the interest evaluator (`workflow.ts` lines 337-350). -/
def shouldCollectContact (s : GraphState) : String :=
  if s.collectingContact || s.contactInfo.collected then "contact_collector"
  else if jsGe s.interestScore 7 then "contact_collector"
  else "generator"

/-- Router after the generator (`workflow.ts` lines 353-361). -/
def afterContactCollection (s : GraphState) : String :=
  if s.contactInfo.collected then "slack_notifier" else "__end__"

/-- The abstract outcomes of one run's external calls: the retriever result,
the evaluator's LLM call, `JSON.parse` on the matched score object, a
possible contact-scanning error, the generator's LLM chain, and the
`SLACK_WEBHOOK_URL` environment value. -/
structure Outcomes where
  retrieval : Except String (List Document)
  evalLLM : Except String String
  parseScore : String → Option JsNum
  scanFail : Option String
  genLLM : Except String String
  slackWebhook : Option String

/-- What one graph run produced: the final state and which optional nodes
ran (`posted` records an attempted webhook POST). -/
structure RunResult where
  final : GraphState
  visitedCollector : Bool
  visitedNotifier : Bool
  posted : Bool

/-- The edges `__start__ → retriever → interest_evaluator`: both
unconditional nodes, merged in order. -/
def preRoute (o : Outcomes) (s0 : GraphState) : GraphState :=
  let s1 := applyUpdate s0 (retrieverNode s0 o.retrieval)
  applyUpdate s1 (interestEvaluatorNode s1 o.evalLLM o.parseScore)

/-- The conditional edge after the evaluator: run the contact collector
exactly when `shouldCollectContact` routes there (the boolean records
whether it ran). -/
def collectStep (o : Outcomes) (s2 : GraphState) : GraphState × Bool :=
  if shouldCollectContact s2 == "contact_collector" then
    (applyUpdate s2 (contactCollectorNode s2 o.scanFail), true)
  else (s2, false)

/-- The unconditional `generator` node. -/
def generateStep (o : Outcomes) (s3 : GraphState) : GraphState :=
  applyUpdate s3 (generatorNode s3 o.genLLM)

/-- The conditional edge after the generator: run the Slack notifier exactly
when `afterContactCollection` routes there (the booleans record whether it
ran and whether a POST was attempted). -/
def notifyStep (o : Outcomes) (s4 : GraphState) : GraphState × Bool × Bool :=
  if afterContactCollection s4 == "slack_notifier" then
    let n := slackNotifierNode s4 o.slackWebhook
    (applyUpdate s4 n.1, true, n.2)
  else (s4, false, false)

/-- One full graph run on an already-merged input state: the node sequence
of `createWorkflow`'s edges, each node's update merged by the channel
reducers, the two routers deciding the optional nodes. -/
def run (o : Outcomes) (s0 : GraphState) : RunResult :=
  let s2 := preRoute o s0
  let c := collectStep o s2
  let s4 := generateStep o c.1
  let n := notifyStep o s4
  { final := n.1, visitedCollector := c.2,
    visitedNotifier := n.2.1, posted := n.2.2 }

/-- Merging the invocation input `{messages: [new HumanMessage(text)]}` into
the thread's persisted state (the `messages` reducer concatenates). -/
def addUserMessage (s : GraphState) (text : String) : GraphState :=
  applyUpdate s { messages := [{ role := Role.human, content := text }] }

/-- A whole conversation: fold a list of (user text, run outcomes) pairs,
each invocation merging the user message and running the graph once. -/
def runs (s : GraphState) : List (String × Outcomes) → GraphState
  | [] => s
  | (m, o) :: rest => runs (run o (addUserMessage s m)).final rest

/-- States observable between runs of one conversation thread: the default
initial state, and the final state of any run from a reachable state with
any user message and any external outcomes. -/
inductive Reachable : GraphState → Prop where
  | init : Reachable GraphState.init
  | step {s : GraphState} (m : String) (o : Outcomes) :
      Reachable s → Reachable (run o (addUserMessage s m)).final

/-!
Helper lemmas: how each channel moves through one update, which channels
each node leaves untouched, and how the composed steps behave.
-/

theorem applyUpdate_messages (s : GraphState) (u : Update) :
    (applyUpdate s u).messages = s.messages ++ u.messages := rfl

theorem applyUpdate_answer (s : GraphState) (u : Update) :
    (applyUpdate s u).answer = u.answer.getD s.answer := rfl

theorem applyUpdate_retrievedDocs (s : GraphState) (u : Update) :
    (applyUpdate s u).retrievedDocs = u.retrievedDocs.getD s.retrievedDocs := rfl

theorem applyUpdate_errors (s : GraphState) (u : Update) :
    (applyUpdate s u).errors = s.errors ++ u.errors := rfl

theorem applyUpdate_contactInfo (s : GraphState) (u : Update) :
    (applyUpdate s u).contactInfo = u.contactInfo.getD s.contactInfo := rfl

theorem applyUpdate_collectingContact (s : GraphState) (u : Update) :
    (applyUpdate s u).collectingContact =
      u.collectingContact.getD s.collectingContact := rfl

theorem applyUpdate_appendMessage (s : GraphState) (u : Update) :
    (applyUpdate s u).appendMessage = u.appendMessage.getD s.appendMessage := rfl

theorem applyUpdate_interestScore (s : GraphState) (u : Update) :
    (applyUpdate s u).interestScore =
      match u.interestScore with
      | none => s.interestScore
      | some v => jsMax s.interestScore v := rfl

theorem jsMax_num_inv (x y : JsNum) (b : Int) (h : jsMax x y = JsNum.num b) :
    ∃ a, x = JsNum.num a ∧ a ≤ b := by
  cases x with
  | nan => cases y <;> simp [jsMax] at h
  | num a =>
    cases y with
    | nan => simp [jsMax] at h
    | num c =>
      refine ⟨a, rfl, ?_⟩
      simp only [jsMax, JsNum.num.injEq] at h
      rw [← h]
      exact le_max_left a c

theorem jsMax_nan_left (y : JsNum) : jsMax JsNum.nan y = JsNum.nan := by
  cases y <;> rfl

theorem applyUpdate_interestScore_num (s : GraphState) (u : Update) (b : Int)
    (h : (applyUpdate s u).interestScore = JsNum.num b) :
    ∃ a, s.interestScore = JsNum.num a ∧ a ≤ b := by
  rw [applyUpdate_interestScore] at h
  cases hu : u.interestScore with
  | none =>
    rw [hu] at h
    exact ⟨b, h, le_refl b⟩
  | some v =>
    rw [hu] at h
    exact jsMax_num_inv _ _ _ h

theorem applyUpdate_interestScore_nan (s : GraphState) (u : Update)
    (h : s.interestScore = JsNum.nan) :
    (applyUpdate s u).interestScore = JsNum.nan := by
  rw [applyUpdate_interestScore]
  cases u.interestScore with
  | none => exact h
  | some v =>
    rw [h]
    exact jsMax_nan_left v

theorem applyUpdate_empty (s : GraphState) : applyUpdate s Update.empty = s := by
  cases s; simp [applyUpdate, Update.empty]

theorem retrieverNode_messages (s : GraphState) (r : Except String (List Document)) :
    (retrieverNode s r).messages = [] := by
  unfold retrieverNode; (repeat' split) <;> rfl

theorem retrieverNode_answer (s : GraphState) (r : Except String (List Document)) :
    (retrieverNode s r).answer = none := by
  unfold retrieverNode; (repeat' split) <;> rfl

theorem retrieverNode_interestScore (s : GraphState) (r : Except String (List Document)) :
    (retrieverNode s r).interestScore = none := by
  unfold retrieverNode; (repeat' split) <;> rfl

theorem retrieverNode_contactInfo (s : GraphState) (r : Except String (List Document)) :
    (retrieverNode s r).contactInfo = none := by
  unfold retrieverNode; (repeat' split) <;> rfl

theorem retrieverNode_collectingContact (s : GraphState) (r : Except String (List Document)) :
    (retrieverNode s r).collectingContact = none := by
  unfold retrieverNode; (repeat' split) <;> rfl

theorem retrieverNode_appendMessage (s : GraphState) (r : Except String (List Document)) :
    (retrieverNode s r).appendMessage = none := by
  unfold retrieverNode; (repeat' split) <;> rfl

theorem interestEvaluatorNode_messages (s : GraphState) (l : Except String String)
    (p : String → Option JsNum) : (interestEvaluatorNode s l p).messages = [] := by
  unfold interestEvaluatorNode; (repeat' split) <;> rfl

theorem interestEvaluatorNode_answer (s : GraphState) (l : Except String String)
    (p : String → Option JsNum) : (interestEvaluatorNode s l p).answer = none := by
  unfold interestEvaluatorNode; (repeat' split) <;> rfl

theorem interestEvaluatorNode_retrievedDocs (s : GraphState) (l : Except String String)
    (p : String → Option JsNum) : (interestEvaluatorNode s l p).retrievedDocs = none := by
  unfold interestEvaluatorNode; (repeat' split) <;> rfl

theorem interestEvaluatorNode_errors (s : GraphState) (l : Except String String)
    (p : String → Option JsNum) : (interestEvaluatorNode s l p).errors = [] := by
  unfold interestEvaluatorNode; (repeat' split) <;> rfl

theorem interestEvaluatorNode_contactInfo (s : GraphState) (l : Except String String)
    (p : String → Option JsNum) : (interestEvaluatorNode s l p).contactInfo = none := by
  unfold interestEvaluatorNode; (repeat' split) <;> rfl

theorem interestEvaluatorNode_collectingContact (s : GraphState) (l : Except String String)
    (p : String → Option JsNum) : (interestEvaluatorNode s l p).collectingContact = none := by
  unfold interestEvaluatorNode; (repeat' split) <;> rfl

theorem interestEvaluatorNode_appendMessage (s : GraphState) (l : Except String String)
    (p : String → Option JsNum) : (interestEvaluatorNode s l p).appendMessage = none := by
  unfold interestEvaluatorNode; (repeat' split) <;> rfl

theorem contactCollectorNode_messages (s : GraphState) (sf : Option String) :
    (contactCollectorNode s sf).messages = [] := by
  unfold contactCollectorNode; dsimp only; (repeat' split) <;> rfl

theorem contactCollectorNode_answer (s : GraphState) (sf : Option String) :
    (contactCollectorNode s sf).answer = none := by
  unfold contactCollectorNode; dsimp only; (repeat' split) <;> rfl

theorem contactCollectorNode_retrievedDocs (s : GraphState) (sf : Option String) :
    (contactCollectorNode s sf).retrievedDocs = none := by
  unfold contactCollectorNode; dsimp only; (repeat' split) <;> rfl

theorem contactCollectorNode_errors (s : GraphState) (sf : Option String) :
    (contactCollectorNode s sf).errors = [] := by
  unfold contactCollectorNode; dsimp only; (repeat' split) <;> rfl

theorem contactCollectorNode_interestScore (s : GraphState) (sf : Option String) :
    (contactCollectorNode s sf).interestScore = none := by
  unfold contactCollectorNode; dsimp only; (repeat' split) <;> rfl

theorem contactCollectorNode_collected (s : GraphState) (sf : Option String)
    (ci : ContactInfo) (h : (contactCollectorNode s sf).contactInfo = some ci) :
    ci.collected = true := by
  unfold contactCollectorNode at h
  cases sf with
  | some e => simp at h
  | none =>
    dsimp only at h
    cases hE : matchG0 emailRe (lastUserMessage s) with
    | none =>
      rw [hE] at h
      (repeat' split at h) <;> simp_all [Update.empty]
    | some email =>
      rw [hE] at h
      replace h := Option.some.inj h
      rw [← h]

theorem contactCollectorNode_collected_stops (s : GraphState) (sf : Option String)
    (ci : ContactInfo) (h : (contactCollectorNode s sf).contactInfo = some ci) :
    (contactCollectorNode s sf).collectingContact = some false := by
  unfold contactCollectorNode at h ⊢
  cases sf with
  | some e => simp at h
  | none =>
    dsimp only at h ⊢
    cases hE : matchG0 emailRe (lastUserMessage s) with
    | none =>
      rw [hE] at h
      (repeat' split at h) <;> simp_all [Update.empty]
    | some email =>
      rfl

theorem generatorNode_retrievedDocs (s : GraphState) (l : Except String String) :
    (generatorNode s l).retrievedDocs = none := by
  unfold generatorNode; (repeat' split) <;> rfl

theorem generatorNode_interestScore (s : GraphState) (l : Except String String) :
    (generatorNode s l).interestScore = none := by
  unfold generatorNode; (repeat' split) <;> rfl

theorem generatorNode_contactInfo (s : GraphState) (l : Except String String) :
    (generatorNode s l).contactInfo = none := by
  unfold generatorNode; (repeat' split) <;> rfl

theorem generatorNode_collectingContact (s : GraphState) (l : Except String String) :
    (generatorNode s l).collectingContact = none := by
  unfold generatorNode; (repeat' split) <;> rfl

theorem generatorNode_shape (s : GraphState) (l : Except String String) :
    ∃ a : String, (generatorNode s l).answer = some a ∧
      (generatorNode s l).messages = [{ role := Role.ai, content := a }] := by
  unfold generatorNode
  repeat' split
  all_goals exact ⟨_, rfl, rfl⟩

theorem slackNotifierNode_update (s : GraphState) (w : Option String) :
    (slackNotifierNode s w).1 = Update.empty := by
  unfold slackNotifierNode; (repeat' split) <;> rfl

theorem preRoute_messages (o : Outcomes) (s : GraphState) :
    (preRoute o s).messages = s.messages := by
  simp [preRoute, applyUpdate_messages, retrieverNode_messages,
    interestEvaluatorNode_messages]

theorem preRoute_answer (o : Outcomes) (s : GraphState) :
    (preRoute o s).answer = s.answer := by
  simp [preRoute, applyUpdate_answer, retrieverNode_answer,
    interestEvaluatorNode_answer]

theorem preRoute_contactInfo (o : Outcomes) (s : GraphState) :
    (preRoute o s).contactInfo = s.contactInfo := by
  simp [preRoute, applyUpdate_contactInfo, retrieverNode_contactInfo,
    interestEvaluatorNode_contactInfo]

theorem preRoute_collectingContact (o : Outcomes) (s : GraphState) :
    (preRoute o s).collectingContact = s.collectingContact := by
  simp [preRoute, applyUpdate_collectingContact, retrieverNode_collectingContact,
    interestEvaluatorNode_collectingContact]

theorem preRoute_appendMessage (o : Outcomes) (s : GraphState) :
    (preRoute o s).appendMessage = s.appendMessage := by
  simp [preRoute, applyUpdate_appendMessage, retrieverNode_appendMessage,
    interestEvaluatorNode_appendMessage]

theorem preRoute_interestScore_num (o : Outcomes) (s : GraphState) (b : Int)
    (h : (preRoute o s).interestScore = JsNum.num b) :
    ∃ a, s.interestScore = JsNum.num a ∧ a ≤ b := by
  unfold preRoute at h
  obtain ⟨a1, h1, hle1⟩ := applyUpdate_interestScore_num _ _ _ h
  obtain ⟨a0, h0, hle0⟩ := applyUpdate_interestScore_num _ _ _ h1
  exact ⟨a0, h0, le_trans hle0 hle1⟩

theorem preRoute_interestScore_nan (o : Outcomes) (s : GraphState)
    (h : s.interestScore = JsNum.nan) :
    (preRoute o s).interestScore = JsNum.nan := by
  unfold preRoute
  exact applyUpdate_interestScore_nan _ _ (applyUpdate_interestScore_nan _ _ h)

theorem collectStep_messages (o : Outcomes) (s : GraphState) :
    (collectStep o s).1.messages = s.messages := by
  unfold collectStep
  split
  · simp [applyUpdate_messages, contactCollectorNode_messages]
  · rfl

theorem collectStep_answer (o : Outcomes) (s : GraphState) :
    (collectStep o s).1.answer = s.answer := by
  unfold collectStep
  split
  · simp [applyUpdate_answer, contactCollectorNode_answer]
  · rfl

theorem collectStep_retrievedDocs (o : Outcomes) (s : GraphState) :
    (collectStep o s).1.retrievedDocs = s.retrievedDocs := by
  unfold collectStep
  split
  · simp [applyUpdate_retrievedDocs, contactCollectorNode_retrievedDocs]
  · rfl

theorem collectStep_errors (o : Outcomes) (s : GraphState) :
    (collectStep o s).1.errors = s.errors := by
  unfold collectStep
  split
  · simp [applyUpdate_errors, contactCollectorNode_errors]
  · rfl

theorem collectStep_interestScore (o : Outcomes) (s : GraphState) :
    (collectStep o s).1.interestScore = s.interestScore := by
  unfold collectStep
  split
  · simp [applyUpdate_interestScore, contactCollectorNode_interestScore]
  · rfl

theorem collectStep_collected (o : Outcomes) (s : GraphState)
    (h : s.contactInfo.collected = true) :
    (collectStep o s).1.contactInfo.collected = true := by
  unfold collectStep
  split
  · dsimp only
    rw [applyUpdate_contactInfo]
    cases hci : (contactCollectorNode s o.scanFail).contactInfo with
    | none => simpa using h
    | some ci => simpa using contactCollectorNode_collected s o.scanFail ci hci
  · exact h

theorem generateStep_contactInfo (o : Outcomes) (s : GraphState) :
    (generateStep o s).contactInfo = s.contactInfo := by
  simp [generateStep, applyUpdate_contactInfo, generatorNode_contactInfo]

theorem generateStep_collectingContact (o : Outcomes) (s : GraphState) :
    (generateStep o s).collectingContact = s.collectingContact := by
  simp [generateStep, applyUpdate_collectingContact, generatorNode_collectingContact]

theorem generateStep_interestScore (o : Outcomes) (s : GraphState) :
    (generateStep o s).interestScore = s.interestScore := by
  simp [generateStep, applyUpdate_interestScore, generatorNode_interestScore]

theorem generateStep_retrievedDocs (o : Outcomes) (s : GraphState) :
    (generateStep o s).retrievedDocs = s.retrievedDocs := by
  simp [generateStep, applyUpdate_retrievedDocs, generatorNode_retrievedDocs]

theorem generateStep_messages (o : Outcomes) (s : GraphState) :
    (generateStep o s).messages =
      s.messages ++ [{ role := Role.ai, content := (generateStep o s).answer }] := by
  obtain ⟨a, ha, hm⟩ := generatorNode_shape s o.genLLM
  simp [generateStep, applyUpdate_messages, applyUpdate_answer, ha, hm]

theorem notifyStep_state (o : Outcomes) (s : GraphState) :
    (notifyStep o s).1 = s := by
  unfold notifyStep
  split
  · dsimp only
    rw [slackNotifierNode_update, applyUpdate_empty]
  · rfl

theorem run_final (o : Outcomes) (s : GraphState) :
    (run o s).final =
      (notifyStep o (generateStep o (collectStep o (preRoute o s)).1)).1 := rfl

theorem run_messages (o : Outcomes) (s : GraphState) :
    (run o s).final.messages =
      s.messages ++ [{ role := Role.ai, content := (run o s).final.answer }] := by
  rw [run_final, notifyStep_state, generateStep_messages, collectStep_messages,
    preRoute_messages]

theorem run_interestScore_num (o : Outcomes) (s : GraphState) (b : Int)
    (h : (run o s).final.interestScore = JsNum.num b) :
    ∃ a, s.interestScore = JsNum.num a ∧ a ≤ b := by
  rw [run_final, notifyStep_state, generateStep_interestScore,
    collectStep_interestScore] at h
  exact preRoute_interestScore_num o s b h

theorem run_interestScore_nan (o : Outcomes) (s : GraphState)
    (h : s.interestScore = JsNum.nan) :
    (run o s).final.interestScore = JsNum.nan := by
  rw [run_final, notifyStep_state, generateStep_interestScore,
    collectStep_interestScore]
  exact preRoute_interestScore_nan o s h

theorem run_collected_persists (o : Outcomes) (s : GraphState)
    (h : s.contactInfo.collected = true) :
    (run o s).final.contactInfo.collected = true := by
  rw [run_final, notifyStep_state, generateStep_contactInfo]
  exact collectStep_collected o _ (by rw [preRoute_contactInfo]; exact h)

theorem run_capture_stops_collecting (o : Outcomes) (s : GraphState)
    (h0 : s.contactInfo.collected = false)
    (h1 : (run o s).final.contactInfo.collected = true) :
    (run o s).final.collectingContact = false := by
  rw [run_final, notifyStep_state, generateStep_collectingContact]
  rw [run_final, notifyStep_state, generateStep_contactInfo] at h1
  unfold collectStep at h1 ⊢
  by_cases hc : (shouldCollectContact (preRoute o s) == "contact_collector") = true
  · rw [if_pos hc] at h1 ⊢
    dsimp only at h1 ⊢
    rw [applyUpdate_collectingContact]
    rw [applyUpdate_contactInfo] at h1
    cases hci : (contactCollectorNode (preRoute o s) o.scanFail).contactInfo with
    | none =>
      rw [hci] at h1
      simp only [Option.getD_none] at h1
      rw [preRoute_contactInfo] at h1
      simp [h1] at h0
    | some ci =>
      rw [contactCollectorNode_collected_stops _ _ ci hci]
      rfl
  · rw [if_neg hc] at h1 ⊢
    dsimp only at h1 ⊢
    rw [preRoute_contactInfo] at h1
    simp [h1] at h0

theorem addUserMessage_interestScore (s : GraphState) (m : String) :
    (addUserMessage s m).interestScore = s.interestScore := rfl

theorem addUserMessage_contactInfo (s : GraphState) (m : String) :
    (addUserMessage s m).contactInfo = s.contactInfo := rfl

theorem runs_interestScore_nan (steps : List (String × Outcomes)) :
    ∀ s : GraphState, s.interestScore = JsNum.nan →
      (runs s steps).interestScore = JsNum.nan := by
  induction steps with
  | nil => intro s h; exact h
  | cons p rest ih =>
    obtain ⟨m, o⟩ := p
    intro s h
    exact ih _ (run_interestScore_nan o _
      (by rw [addUserMessage_interestScore]; exact h))

theorem runs_interestScore_num (steps : List (String × Outcomes)) :
    ∀ (s : GraphState) (a b : Int), s.interestScore = JsNum.num a →
      (runs s steps).interestScore = JsNum.num b → a ≤ b := by
  induction steps with
  | nil =>
    intro s a b ha hb
    have hb2 : s.interestScore = JsNum.num b := hb
    rw [ha] at hb2
    injection hb2 with h
    omega
  | cons p rest ih =>
    obtain ⟨m, o⟩ := p
    intro s a b ha hb
    rw [show runs s ((m, o) :: rest)
        = runs (run o (addUserMessage s m)).final rest from rfl] at hb
    cases hmid : (run o (addUserMessage s m)).final.interestScore with
    | nan =>
      have hnan := runs_interestScore_nan rest _ hmid
      simp [hnan] at hb
    | num c =>
      obtain ⟨a2, ha2, hle⟩ := run_interestScore_num o _ c hmid
      rw [addUserMessage_interestScore, ha] at ha2
      injection ha2 with h
      have hcb := ih (run o (addUserMessage s m)).final c b hmid hb
      omega

theorem runs_collected_persists (steps : List (String × Outcomes)) :
    ∀ s : GraphState, s.contactInfo.collected = true →
      (runs s steps).contactInfo.collected = true := by
  induction steps with
  | nil => intro s h; exact h
  | cons p rest ih =>
    obtain ⟨m, o⟩ := p
    intro s h
    exact ih _ (run_collected_persists o _
      (by rw [addUserMessage_contactInfo]; exact h))

theorem exists_getLast? {α : Type} (l : List α) (h : l ≠ []) :
    ∃ m, l.getLast? = some m :=
  Option.isSome_iff_exists.mp (List.getLast?_isSome.mpr h)

theorem retrieverNode_error_eq (s : GraphState) (e : String)
    (h : s.messages ≠ []) :
    retrieverNode s (.error e) =
      { retrievedDocs := some [], errors := ["Retrieval failed: " ++ e] } := by
  obtain ⟨m, hm⟩ := exists_getLast? s.messages h
  unfold retrieverNode
  rw [hm]

theorem generatorNode_error_eq (s : GraphState) (e : String)
    (h : s.messages ≠ []) :
    generatorNode s (.error e) =
      { answer := some apologyAnswer,
        messages := [{ role := Role.ai, content := apologyAnswer }],
        errors := ["Generation failed: " ++ e] } := by
  obtain ⟨m, hm⟩ := exists_getLast? s.messages h
  unfold generatorNode
  rw [hm]

theorem generatorNode_error_answer (s : GraphState) (e : String) :
    (generatorNode s (.error e)).answer = some apologyAnswer := by
  unfold generatorNode
  cases s.messages.getLast? <;> rfl

theorem generatorNode_nomsg (s : GraphState) (l : Except String String)
    (h : s.messages = []) :
    generatorNode s l =
      { answer := some apologyAnswer,
        messages := [{ role := Role.ai, content := apologyAnswer }],
        errors := ["Generation failed: " ++ undefinedContentMsg] } := by
  unfold generatorNode
  rw [h]
  rfl

theorem preRoute_errors (o : Outcomes) (s : GraphState) :
    (preRoute o s).errors = s.errors ++ (retrieverNode s o.retrieval).errors := by
  simp [preRoute, applyUpdate_errors, interestEvaluatorNode_errors]

theorem preRoute_retrievedDocs (o : Outcomes) (s : GraphState) :
    (preRoute o s).retrievedDocs =
      (retrieverNode s o.retrieval).retrievedDocs.getD s.retrievedDocs := by
  simp [preRoute, applyUpdate_retrievedDocs, interestEvaluatorNode_retrievedDocs]

theorem generateStep_errors (o : Outcomes) (s : GraphState) :
    (generateStep o s).errors = s.errors ++ (generatorNode s o.genLLM).errors := by
  simp [generateStep, applyUpdate_errors]

theorem generateStep_answer (o : Outcomes) (s : GraphState) :
    (generateStep o s).answer = ((generatorNode s o.genLLM).answer).getD s.answer := by
  simp [generateStep, applyUpdate_answer]

theorem run_answer_of_genLLM_error (o : Outcomes) (s : GraphState) (e : String)
    (ho : o.genLLM = .error e) : (run o s).final.answer = apologyAnswer := by
  rw [run_final, notifyStep_state, generateStep_answer, ho,
    generatorNode_error_answer]
  rfl

/-!
The claim theorems, one per claim of the frozen list, with a witness
wherever a theorem carries hypotheses, and machine-checked counterexamples
for the claims the code refutes.
-/

/-- Benign external outcomes (everything succeeds trivially) used to
instantiate witnesses on concrete inputs. -/
def benignOutcomes : Outcomes :=
  { retrieval := .ok []
    evalLLM := .ok ""
    parseScore := fun _ => none
    scanFail := none
    genLLM := .ok "ok"
    slackWebhook := none }

/-- Concrete state with a persisted interest score of 9 and three messages,
so the evaluator reaches its LLM call. -/
def C3cexState : GraphState :=
  { GraphState.init with
      messages :=
        [{ role := Role.human, content := "Hi" },
         { role := Role.ai, content := "Hello!" },
         { role := Role.human, content := "What is the pricing?" }]
      interestScore := JsNum.num 9 }

/-- Outcomes whose LLM response carries a non-numeric score: the regex
matches, `JSON.parse` succeeds, and `result.score` coerces to NaN. -/
def C3cexOutcomes : Outcomes :=
  { retrieval := .ok []
    evalLLM := .ok "\x7b\"score\": \"abc\"\x7d"
    parseScore := fun _ => some JsNum.nan
    scanFail := none
    genLLM := .ok "Sure."
    slackWebhook := none }

/-- Counterexample to C3: on the LLM response `{"score": "abc"}` the
evaluator computes `Math.max(0, Math.min(10, "abc"))` = NaN and returns
`interestScore = NaN`; the reducer's `Math.max(9, NaN)` is NaN, so the
merged value is not the maximum of the existing score and the newly
computed one, and the previously reached 9 is destroyed — `interestScore`
is not monotonically non-decreasing across runs. -/
theorem C3_counterexample :
    C3cexState.interestScore = JsNum.num 9 ∧
    (interestEvaluatorNode
        (applyUpdate C3cexState (retrieverNode C3cexState C3cexOutcomes.retrieval))
        C3cexOutcomes.evalLLM C3cexOutcomes.parseScore).interestScore
      = some JsNum.nan ∧
    (run C3cexOutcomes C3cexState).final.interestScore = JsNum.nan ∧
    JsNum.nan.toInt? = none := by
  exact ⟨rfl, by decide, by decide, rfl⟩

/-- C3 as amended: when both the existing `interestScore` and the newly
computed score are numbers, the merged value is their maximum, and the
score never decreases across any sequence of runs as long as it stays
numeric; a NaN produced from a non-numeric `score` field escapes this
regime and is absorbing from then on. -/
theorem C3_amended_numeric_monotone :
    (∀ (s : GraphState) (u : Update) (a v : Int),
      s.interestScore = JsNum.num a → u.interestScore = some (JsNum.num v) →
      (applyUpdate s u).interestScore = JsNum.num (max a v)) ∧
    (∀ (s : GraphState) (steps : List (String × Outcomes)) (a b : Int),
      s.interestScore = JsNum.num a →
      (runs s steps).interestScore = JsNum.num b → a ≤ b) := by
  constructor
  · intro s u a v hs hu
    rw [applyUpdate_interestScore, hu, hs]
    rfl
  · intro s steps a b ha hb
    exact runs_interestScore_num steps s a b ha hb

/-- Witness for C3's amended theorem at a concrete state, update and run
sequence. -/
theorem C3_amended_witness :
    (applyUpdate { GraphState.init with interestScore := JsNum.num 3 }
        { interestScore := some (JsNum.num 5) }).interestScore
      = JsNum.num (max 3 5) ∧
    (3 : Int) ≤ 3 :=
  ⟨C3_amended_numeric_monotone.1 _ _ 3 5 rfl rfl,
   C3_amended_numeric_monotone.2
     { GraphState.init with interestScore := JsNum.num 3 }
     [("hi", benignOutcomes)] 3 3 rfl (by decide)⟩

/-- C6: once `contactInfo.collected` is true it is never reset: every
`contactInfo` record the contact collector writes has `collected = true`, no
other node writes `contactInfo` at all, and `collected` stays true across
any sequence of subsequent runs. -/
theorem C6_collected_never_reverts :
    (∀ (s : GraphState) (sf : Option String) (ci : ContactInfo),
      (contactCollectorNode s sf).contactInfo = some ci → ci.collected = true) ∧
    (∀ (s : GraphState) (r : Except String (List Document)),
      (retrieverNode s r).contactInfo = none) ∧
    (∀ (s : GraphState) (l : Except String String) (p : String → Option JsNum),
      (interestEvaluatorNode s l p).contactInfo = none) ∧
    (∀ (s : GraphState) (l : Except String String),
      (generatorNode s l).contactInfo = none) ∧
    (∀ (s : GraphState) (w : Option String),
      (slackNotifierNode s w).1.contactInfo = none) ∧
    (∀ (s : GraphState) (steps : List (String × Outcomes)),
      s.contactInfo.collected = true →
        (runs s steps).contactInfo.collected = true) :=
  ⟨contactCollectorNode_collected,
   retrieverNode_contactInfo,
   interestEvaluatorNode_contactInfo,
   generatorNode_contactInfo,
   fun s w => by rw [slackNotifierNode_update]; rfl,
   fun s steps h => runs_collected_persists steps s h⟩

/-- Concrete state whose last user message carries an email address. -/
def C6emailState : GraphState :=
  { GraphState.init with
      messages := [{ role := Role.human, content := "my email is a@b.com" }] }

/-- Concrete state in which contact info is already collected. -/
def C6collectedState : GraphState :=
  { GraphState.init with
      contactInfo := { email := some "a@b.com", collected := true } }

/-- Witness for C6 at concrete inputs. -/
theorem C6_witness :
    ({ email := some "a@b.com", collected := true } : ContactInfo).collected
        = true ∧
    (runs C6collectedState [("x", benignOutcomes)]).contactInfo.collected
        = true :=
  ⟨C6_collected_never_reverts.1 C6emailState none
      { email := some "a@b.com", collected := true } (by decide),
   C6_collected_never_reverts.2.2.2.2.2 C6collectedState
      [("x", benignOutcomes)] (by decide)⟩

/-- C7: the interest evaluator returns no update whenever
`collectingContact` is true, and returns score 0 without depending on the
LLM whenever fewer than 3 messages exist (and it is not collecting): in both
cases the result is a constant, identical for every LLM outcome and parse
function. -/
theorem C7_evaluator_skip_rules (s : GraphState) (l l2 : Except String String)
    (p p2 : String → Option JsNum) :
    (s.collectingContact = true → interestEvaluatorNode s l p = Update.empty) ∧
    (s.collectingContact = false → s.messages.length < 3 →
      interestEvaluatorNode s l p = { interestScore := some (JsNum.num 0) } ∧
      interestEvaluatorNode s l p = interestEvaluatorNode s l2 p2) := by
  constructor
  · intro h
    simp [interestEvaluatorNode, h]
  · intro h hlen
    constructor
    · simp [interestEvaluatorNode, h, hlen]
    · simp [interestEvaluatorNode, h, hlen]

/-- Witness for C7 at concrete inputs. -/
theorem C7_witness :
    interestEvaluatorNode { GraphState.init with collectingContact := true }
        (.ok "x") (fun _ => none) = Update.empty ∧
    interestEvaluatorNode GraphState.init (.ok "y")
        (fun _ => some (JsNum.num 5)) =
        { interestScore := some (JsNum.num 0) } :=
  ⟨(C7_evaluator_skip_rules { GraphState.init with collectingContact := true }
      (.ok "x") (.ok "z") (fun _ => none) (fun _ => none)).1 rfl,
   ((C7_evaluator_skip_rules GraphState.init (.ok "y") (.ok "z")
      (fun _ => some (JsNum.num 5)) (fun _ => none)).2 rfl (by decide)).1⟩

/-- Concrete three-message state for the C8 witness. -/
def C8state : GraphState :=
  { GraphState.init with
      messages :=
        [{ role := Role.human, content := "Hi" },
         { role := Role.ai, content := "Hello!" },
         { role := Role.human, content := "Tell me about pricing" }] }

/-- Counterexample to C8: on the response `{"score": "abc"}` the score
object is found and `JSON.parse` succeeds, but `result.score` coerces to
NaN, so `Math.max(0, Math.min(10, result.score))` is NaN — the stage yields
`interestScore = NaN`, which is not a number in [0,10] and is not 0. -/
theorem C8_counterexample :
    interestEvaluatorNode C8state (.ok "\x7b\"score\": \"abc\"\x7d")
        (fun _ => some JsNum.nan) = { interestScore := some JsNum.nan } ∧
    JsNum.nan.toInt? = none ∧
    JsNum.nan ≠ JsNum.num 0 := by
  exact ⟨by decide, rfl, by decide⟩

/-- C8 as amended: past the skip rules the evaluator always returns some
`interestScore` update — the clamp of the parsed score, a number in [0,10],
when the matched object's `score` is numeric; 0 when the invocation fails,
no `{..."score"...}` object is found, or `JSON.parse` throws; and NaN when
the object parses but its `score` is non-numeric. -/
theorem C8_amended_score_clamped (s : GraphState) (l : Except String String)
    (p : String → Option JsNum) (h1 : s.collectingContact = false)
    (h2 : 3 ≤ s.messages.length) :
    ∃ x : JsNum, interestEvaluatorNode s l p = { interestScore := some x } ∧
      (∀ e, l = .error e → x = JsNum.num 0) ∧
      (∀ c, l = .ok c → matchG0 scoreJsonRe c = none → x = JsNum.num 0) ∧
      (∀ c j, l = .ok c → matchG0 scoreJsonRe c = some j → p j = none →
        x = JsNum.num 0) ∧
      (∀ c j v, l = .ok c → matchG0 scoreJsonRe c = some j →
        p j = some (JsNum.num v) →
        x = JsNum.num (max 0 (min 10 v)) ∧ 0 ≤ max 0 (min 10 v) ∧
          max 0 (min 10 v) ≤ 10) ∧
      (∀ c j, l = .ok c → matchG0 scoreJsonRe c = some j →
        p j = some JsNum.nan → x = JsNum.nan) := by
  have hlen : ¬ s.messages.length < 3 := by omega
  cases l with
  | error e =>
    refine ⟨JsNum.num 0, ?_, fun _ _ => rfl, ?_, ?_, ?_, ?_⟩
    · simp [interestEvaluatorNode, h1, hlen]
    · intro c hc; exact nomatch hc
    · intro c j hc; exact nomatch hc
    · intro c j v hc; exact nomatch hc
    · intro c j hc; exact nomatch hc
  | ok c0 =>
    cases hm : matchG0 scoreJsonRe c0 with
    | none =>
      refine ⟨JsNum.num 0, ?_, ?_, fun c hc hn => rfl, ?_, ?_, ?_⟩
      · simp [interestEvaluatorNode, h1, hlen, hm]
      · intro e he; exact nomatch he
      · intro c j hc hj hp
        injection hc with h
        subst h
        simp [hm] at hj
      · intro c j v hc hj hp
        injection hc with h
        subst h
        simp [hm] at hj
      · intro c j hc hj hp
        injection hc with h
        subst h
        simp [hm] at hj
    | some j0 =>
      cases hp0 : p j0 with
      | none =>
        refine ⟨JsNum.num 0, ?_, ?_, ?_, fun c j hc hj hp => rfl, ?_, ?_⟩
        · simp [interestEvaluatorNode, h1, hlen, hm, hp0]
        · intro e he; exact nomatch he
        · intro c hc hn
          injection hc with h
          subst h
          simp [hm] at hn
        · intro c j v hc hj hp
          injection hc with h
          subst h
          rw [hm] at hj
          injection hj with h2
          subst h2
          simp [hp0] at hp
        · intro c j hc hj hp
          injection hc with h
          subst h
          rw [hm] at hj
          injection hj with h2
          subst h2
          simp [hp0] at hp
      | some x0 =>
        cases x0 with
        | num v0 =>
          refine ⟨JsNum.num (max 0 (min 10 v0)), ?_, ?_, ?_, ?_, ?_, ?_⟩
          · simp [interestEvaluatorNode, h1, hlen, hm, hp0, clampScore,
              jsMin, jsMax]
          · intro e he; exact nomatch he
          · intro c hc hn
            injection hc with h
            subst h
            simp [hm] at hn
          · intro c j hc hj hp
            injection hc with h
            subst h
            rw [hm] at hj
            injection hj with h2
            subst h2
            simp [hp0] at hp
          · intro c j v hc hj hp
            injection hc with h
            subst h
            rw [hm] at hj
            injection hj with h2
            subst h2
            rw [hp0] at hp
            injection hp with h3
            injection h3 with h4
            subst h4
            exact ⟨rfl, le_max_left 0 _, max_le (by norm_num) (min_le_left 10 v0)⟩
          · intro c j hc hj hp
            injection hc with h
            subst h
            rw [hm] at hj
            injection hj with h2
            subst h2
            simp [hp0] at hp
        | nan =>
          refine ⟨JsNum.nan, ?_, ?_, ?_, ?_, ?_, fun c j hc hj hp => rfl⟩
          · simp [interestEvaluatorNode, h1, hlen, hm, hp0, clampScore,
              jsMin, jsMax]
          · intro e he; exact nomatch he
          · intro c hc hn
            injection hc with h
            subst h
            simp [hm] at hn
          · intro c j hc hj hp
            injection hc with h
            subst h
            rw [hm] at hj
            injection hj with h2
            subst h2
            simp [hp0] at hp
          · intro c j v hc hj hp
            injection hc with h
            subst h
            rw [hm] at hj
            injection hj with h2
            subst h2
            simp [hp0] at hp

/-- Witness for C8's amended theorem: a numeric score of 99 is clamped to a
number in [0,10]. -/
theorem C8_amended_witness :
    ∃ x : JsNum,
      interestEvaluatorNode C8state (.ok "\x7b\"score\": 99\x7d")
          (fun _ => some (JsNum.num 99)) = { interestScore := some x } ∧
      x = JsNum.num (max 0 (min 10 99)) ∧ (0 : Int) ≤ max 0 (min 10 99) ∧
        max 0 (min 10 (99 : Int)) ≤ 10 := by
  obtain ⟨x, hx, _, _, _, h5, _⟩ :=
    C8_amended_score_clamped C8state (.ok "\x7b\"score\": 99\x7d")
      (fun _ => some (JsNum.num 99)) (by decide) (by decide)
  obtain ⟨he, hb1, hb2⟩ :=
    h5 "\x7b\"score\": 99\x7d" "\x7b\"score\": 99\x7d" 99 rfl (by decide) rfl
  exact ⟨x, hx, he, hb1, hb2⟩


/-- C9: no stage failure aborts a run — each node's failure branch returns
its documented fallback update, every run appends exactly one assistant
message whose content is the run's final answer, and a generator failure
makes that answer the fixed apology and records an error string. -/
theorem C9_graceful_degradation :
    (∀ (s : GraphState) (e : String), s.messages ≠ [] →
      retrieverNode s (.error e) =
        { retrievedDocs := some [], errors := ["Retrieval failed: " ++ e] }) ∧
    (∀ (s : GraphState) (p : String → Option JsNum) (e : String),
      s.collectingContact = false → 3 ≤ s.messages.length →
        interestEvaluatorNode s (.error e) p =
          { interestScore := some (JsNum.num 0) }) ∧
    (∀ (s : GraphState) (e : String),
      contactCollectorNode s (some e) = { collectingContact := some false }) ∧
    (∀ (s : GraphState) (w : Option String),
      (slackNotifierNode s w).1 = Update.empty) ∧
    (∀ (s : GraphState) (e : String), s.messages ≠ [] →
      generatorNode s (.error e) =
        { answer := some apologyAnswer,
          messages := [{ role := Role.ai, content := apologyAnswer }],
          errors := ["Generation failed: " ++ e] }) ∧
    (∀ (o : Outcomes) (s : GraphState),
      (run o s).final.messages =
        s.messages ++ [{ role := Role.ai, content := (run o s).final.answer }]) ∧
    (∀ (o : Outcomes) (s : GraphState) (e : String), o.genLLM = .error e →
      (run o s).final.answer = apologyAnswer) ∧
    (∀ (o : Outcomes) (s : GraphState) (e : String), s.messages ≠ [] →
      o.genLLM = .error e →
        ("Generation failed: " ++ e) ∈ (run o s).final.errors) := by
  refine ⟨retrieverNode_error_eq, ?_, ?_, slackNotifierNode_update,
    generatorNode_error_eq, run_messages, run_answer_of_genLLM_error, ?_⟩
  · intro s p e h1 h2
    have hlen : ¬ s.messages.length < 3 := by omega
    simp [interestEvaluatorNode, h1, hlen]
  · intro s e
    rfl
  · intro o s e hm ho
    rw [run_final, notifyStep_state, generateStep_errors, ho]
    have hmsg : (collectStep o (preRoute o s)).1.messages ≠ [] := by
      rw [collectStep_messages, preRoute_messages]; exact hm
    rw [generatorNode_error_eq _ _ hmsg]
    simp

/-- Witness for C9 at concrete inputs (a one-message state, every external
call failing). -/
theorem C9_witness :
    retrieverNode C6emailState (.error "boom") =
      { retrievedDocs := some [], errors := ["Retrieval failed: boom"] } ∧
    interestEvaluatorNode C8state (.error "boom") (fun _ => none) =
      { interestScore := some (JsNum.num 0) } ∧
    contactCollectorNode GraphState.init (some "boom") =
      { collectingContact := some false } ∧
    (slackNotifierNode GraphState.init none).1 = Update.empty ∧
    generatorNode C6emailState (.error "boom") =
      { answer := some apologyAnswer,
        messages := [{ role := Role.ai, content := apologyAnswer }],
        errors := ["Generation failed: boom"] } ∧
    (run { benignOutcomes with genLLM := .error "boom" } C6emailState).final.answer
      = apologyAnswer ∧
    ("Generation failed: boom") ∈
      (run { benignOutcomes with genLLM := .error "boom" } C6emailState).final.errors :=
  ⟨C9_graceful_degradation.1 C6emailState "boom" (by decide),
   C9_graceful_degradation.2.1 C8state (fun _ => none) "boom" (by decide) (by decide),
   C9_graceful_degradation.2.2.1 GraphState.init "boom",
   C9_graceful_degradation.2.2.2.1 GraphState.init none,
   C9_graceful_degradation.2.2.2.2.1 C6emailState "boom" (by decide),
   C9_graceful_degradation.2.2.2.2.2.2.1
     { benignOutcomes with genLLM := .error "boom" } C6emailState "boom" rfl,
   C9_graceful_degradation.2.2.2.2.2.2.2
     { benignOutcomes with genLLM := .error "boom" } C6emailState "boom"
     (by decide) rfl⟩

/-- C10: with an empty messages list no stage crashes — the retriever
catches the access error and returns empty docs plus a retrieval-failure
error string, and the generator catches its own access error and still
returns the fixed apology answer with one appended assistant message; both
error records reach the final state. -/
theorem C10_empty_messages_safe (s : GraphState) (o : Outcomes)
    (h : s.messages = []) :
    retrieverNode s o.retrieval =
      { retrievedDocs := some [],
        errors := ["Retrieval failed: " ++ undefinedContentMsg] } ∧
    (run o s).final.retrievedDocs = [] ∧
    (run o s).final.answer = apologyAnswer ∧
    (run o s).final.messages = [{ role := Role.ai, content := apologyAnswer }] ∧
    ("Retrieval failed: " ++ undefinedContentMsg) ∈ (run o s).final.errors ∧
    ("Generation failed: " ++ undefinedContentMsg) ∈ (run o s).final.errors := by
  have hret : retrieverNode s o.retrieval =
      { retrievedDocs := some [],
        errors := ["Retrieval failed: " ++ undefinedContentMsg] } := by
    unfold retrieverNode
    rw [h]
    rfl
  have hcmsg : (collectStep o (preRoute o s)).1.messages = [] := by
    rw [collectStep_messages, preRoute_messages, h]
  have hgen := generatorNode_nomsg (collectStep o (preRoute o s)).1 o.genLLM hcmsg
  have hans : (run o s).final.answer = apologyAnswer := by
    rw [run_final, notifyStep_state, generateStep_answer, hgen]
    rfl
  refine ⟨hret, ?_, hans, ?_, ?_, ?_⟩
  · rw [run_final, notifyStep_state, generateStep_retrievedDocs,
      collectStep_retrievedDocs, preRoute_retrievedDocs, hret]
    rfl
  · rw [run_messages, hans, h]
    rfl
  · rw [run_final, notifyStep_state, generateStep_errors, collectStep_errors,
      preRoute_errors, hret]
    simp
  · rw [run_final, notifyStep_state, generateStep_errors, hgen]
    simp

/-- Witness for C10 at the default (empty) state with benign outcomes. -/
theorem C10_witness :
    retrieverNode GraphState.init benignOutcomes.retrieval =
      { retrievedDocs := some [],
        errors := ["Retrieval failed: " ++ undefinedContentMsg] } ∧
    (run benignOutcomes GraphState.init).final.retrievedDocs = [] ∧
    (run benignOutcomes GraphState.init).final.answer = apologyAnswer ∧
    (run benignOutcomes GraphState.init).final.messages =
      [{ role := Role.ai, content := apologyAnswer }] ∧
    ("Retrieval failed: " ++ undefinedContentMsg) ∈
      (run benignOutcomes GraphState.init).final.errors ∧
    ("Generation failed: " ++ undefinedContentMsg) ∈
      (run benignOutcomes GraphState.init).final.errors :=
  C10_empty_messages_safe GraphState.init benignOutcomes rfl

/-- Concrete state whose last user message is the C4 scenario text. -/
def C4state : GraphState :=
  { GraphState.init with
      messages :=
        [{ role := Role.human,
           content := "my email is x@y.com, I'm Jane from Acme" }] }

/-- Counterexample to C4: on the scenario message the collector's name
pattern greedily captures through the words after the name, so the recorded
name is "Jane from Acme", not "Jane" as the claim states. -/
theorem C4_counterexample :
    (contactCollectorNode C4state none).contactInfo =
      some { name := some "Jane from Acme", email := some "x@y.com",
             company := some "Acme", collected := true } ∧
    (some "Jane from Acme" : Option String) ≠ some "Jane" := by
  exact ⟨by decide, by decide⟩

/-- C4 as amended: the collector extracts email "x@y.com", name
"Jane from Acme" (the `[a-z\s]+` capture runs to the end of the message
before trimming), company "Acme", sets collected, ends collecting mode and
queues the personalized thank-you. -/
theorem C4_amended_extraction :
    contactCollectorNode C4state none =
      { contactInfo :=
          some { name := some "Jane from Acme", email := some "x@y.com",
                 company := some "Acme", collected := true },
        collectingContact := some false,
        appendMessage := some (thankYouMessage (some "Jane from Acme")) } := by
  decide

/-- Concrete state entering Generation with a pending append message. -/
def C5state : GraphState :=
  { GraphState.init with
      messages := [{ role := Role.human, content := "Hi" }]
      appendMessage := "PING" }

/-- Counterexample to C5: when the LLM invocation fails, the run of the
Generation stage substitutes the apology — which does not contain the
pending appended text — and leaves `appendMessage` uncleared. -/
theorem C5_counterexample :
    (applyUpdate C5state (generatorNode C5state (.error "LLM down"))).answer
        = apologyAnswer ∧
    strIncludes apologyAnswer "PING" = false ∧
    (applyUpdate C5state (generatorNode C5state (.error "LLM down"))).appendMessage
        = "PING" ∧
    ("PING" : String) ≠ "" := by
  exact ⟨by decide, by decide, by decide, by decide⟩

/-- C5 as amended: when the LLM invocation succeeds, a non-empty
`appendMessage` is appended blank-line separated and cleared to empty; when
it fails, the apology is substituted and `appendMessage` is left unchanged
(neither appended nor cleared). -/
theorem C5_amended_append_behavior (s : GraphState) (a e : String)
    (hm : s.messages ≠ []) :
    (s.appendMessage ≠ "" →
      generatorNode s (.ok a) =
        { answer := some (a ++ "\n\n" ++ s.appendMessage),
          messages := [{ role := Role.ai,
                         content := a ++ "\n\n" ++ s.appendMessage }],
          appendMessage := some "" } ∧
      (applyUpdate s (generatorNode s (.ok a))).appendMessage = "") ∧
    ((applyUpdate s (generatorNode s (.error e))).appendMessage =
        s.appendMessage ∧
      (applyUpdate s (generatorNode s (.error e))).answer = apologyAnswer) := by
  obtain ⟨m, hlast⟩ := exists_getLast? s.messages hm
  constructor
  · intro hap
    have hne : (s.appendMessage == "") = false := by
      cases hx : s.appendMessage == "" with
      | false => rfl
      | true => exact absurd (by simpa using hx) hap
    have hgen : generatorNode s (.ok a) =
        { answer := some (a ++ "\n\n" ++ s.appendMessage),
          messages := [{ role := Role.ai,
                         content := a ++ "\n\n" ++ s.appendMessage }],
          appendMessage := some "" } := by
      unfold generatorNode
      rw [hlast]
      simp [hne]
    exact ⟨hgen, by rw [applyUpdate_appendMessage, hgen]; rfl⟩
  · have hgen := generatorNode_error_eq s e hm
    constructor
    · rw [applyUpdate_appendMessage, hgen]
      rfl
    · rw [applyUpdate_answer, hgen]
      rfl

/-- Concrete state for the C5 witness. -/
def C5wState : GraphState :=
  { GraphState.init with
      messages := [{ role := Role.human, content := "Hello" }]
      appendMessage := "FOLLOWUP" }

/-- Witness for C5's amended theorem at a concrete state. -/
theorem C5_amended_witness :
    (applyUpdate C5wState (generatorNode C5wState (.ok "Sure."))).appendMessage
        = "" ∧
    (applyUpdate C5wState (generatorNode C5wState (.error "down"))).answer
        = apologyAnswer :=
  ⟨((C5_amended_append_behavior C5wState "Sure." "down" (by decide)).1
      (by decide)).2,
   (C5_amended_append_behavior C5wState "Sure." "down" (by decide)).2.2⟩

theorem notifyStep_flags (o : Outcomes) (s4 : GraphState)
    (h4 : s4.contactInfo.collected = true) :
    (notifyStep o s4).2.1 = true ∧
    (notifyStep o s4).2.2 = o.slackWebhook.isSome := by
  simp only [notifyStep, afterContactCollection, slackNotifierNode, h4]
  cases o.slackWebhook <;> simp

/-- Concrete state in which contact was collected in a previous cycle and
the new user message carries no email. -/
def C1state : GraphState :=
  { GraphState.init with
      messages :=
        [{ role := Role.human, content := "Hi" },
         { role := Role.ai, content := "Hello!" },
         { role := Role.human, content := "thanks" }]
      interestScore := JsNum.num 9
      contactInfo := { email := some "a@b.com", collected := true } }

/-- Outcomes for the C1 counterexample run: the webhook is configured. -/
def C1outcomes : Outcomes :=
  { retrieval := .ok []
    evalLLM := .ok "no json here"
    parseScore := fun _ => none
    scanFail := none
    genLLM := .ok "You are welcome!"
    slackWebhook := some "https://hooks.slack.example/T000/B000/XXX" }

/-- Counterexample to C1: a run that starts with `contactInfo.collected`
already true and whose user message contains no email (so nothing new is
collected — `contactInfo` is unchanged) still reaches the Slack notifier and
attempts the webhook POST again instead of terminating after Generation. -/
theorem C1_counterexample :
    C1state.contactInfo.collected = true ∧
    matchG0 emailRe (lastUserMessage C1state) = none ∧
    (run C1outcomes C1state).final.contactInfo = C1state.contactInfo ∧
    (run C1outcomes C1state).visitedNotifier = true ∧
    (run C1outcomes C1state).posted = true := by
  exact ⟨rfl, by decide, by decide, by decide, by decide⟩

/-- C1 as amended: once `contactInfo.collected` is true, every subsequent
run routes to the Notification stage after Generation, and attempts the
webhook POST exactly when the webhook URL is configured — the POST is issued
once per run while collected remains true, not once per collected lead. -/
theorem C1_amended_notifier_every_run (o : Outcomes) (s : GraphState)
    (h : s.contactInfo.collected = true) :
    (run o s).visitedNotifier = true ∧
    (run o s).posted = o.slackWebhook.isSome := by
  have h4 : (generateStep o
      (collectStep o (preRoute o s)).1).contactInfo.collected = true := by
    rw [generateStep_contactInfo]
    exact collectStep_collected o _ (by rw [preRoute_contactInfo]; exact h)
  have hf := notifyStep_flags o _ h4
  exact ⟨hf.1, hf.2⟩

/-- Witness for C1's amended theorem at the concrete counterexample run. -/
theorem C1_amended_witness :
    (run C1outcomes C1state).visitedNotifier = true ∧
    (run C1outcomes C1state).posted = C1outcomes.slackWebhook.isSome :=
  C1_amended_notifier_every_run C1outcomes C1state rfl

/-- Outcomes of the first C2 run (a greeting; nothing is scored yet). -/
def C2o1 : Outcomes :=
  { retrieval := .ok []
    evalLLM := .ok "n/a"
    parseScore := fun _ => none
    scanFail := none
    genLLM := .ok "Hi there!"
    slackWebhook := none }

/-- Outcomes of the second C2 run (the evaluator's LLM scores 9, the user
message carries an email, so contact is captured). -/
def C2o2 : Outcomes :=
  { retrieval := .ok []
    evalLLM := .ok "\x7b\"score\": 9\x7d"
    parseScore := fun _ => some (JsNum.num 9)
    scanFail := none
    genLLM := .ok "Great!"
    slackWebhook := none }

/-- Outcomes of the third C2 run (a plain follow-up with no email). -/
def C2o3 : Outcomes :=
  { retrieval := .ok []
    evalLLM := .ok "\x7b\"score\": 2\x7d"
    parseScore := fun _ => some (JsNum.num 2)
    scanFail := none
    genLLM := .ok "Sure."
    slackWebhook := none }

/-- Steady state after the first C2 run. -/
def C2state1 : GraphState :=
  (run C2o1 (addUserMessage GraphState.init "Hello")).final

/-- Steady state after the second C2 run: contact has been captured. -/
def C2state2 : GraphState :=
  (run C2o2 (addUserMessage C2state1
    "I want to sign up, my email is a@b.com")).final

/-- Steady state after the third C2 run. -/
def C2state3 : GraphState :=
  (run C2o3 (addUserMessage C2state2 "ok")).final

/-- Counterexample to C2: a reachable steady state in which
`collectingContact` and `contactInfo.collected` hold simultaneously — the
run after the capturing one routes back into the collector, finds no email
and re-enters collecting mode while collected stays true. -/
theorem C2_counterexample :
    Reachable C2state3 ∧ C2state3.collectingContact = true ∧
    C2state3.contactInfo.collected = true := by
  refine ⟨?_, by decide, by decide⟩
  exact Reachable.step _ _ (Reachable.step _ _ (Reachable.step _ _ Reachable.init))

/-- C2 as amended: mutual exclusion holds at the end of the capturing run —
any run that turns `contactInfo.collected` from false to true ends with
`collectingContact = false` — but later runs can re-enter collecting mode
while collected remains true. -/
theorem C2_amended_capture_run (o : Outcomes) (s : GraphState)
    (h0 : s.contactInfo.collected = false)
    (h1 : (run o s).final.contactInfo.collected = true) :
    (run o s).final.collectingContact = false :=
  run_capture_stops_collecting o s h0 h1

/-- Concrete capturing run for the C2 witness: an email in the user message
and a persisted interest score of 9. -/
def C2wState : GraphState :=
  { GraphState.init with
      messages := [{ role := Role.human, content := "my email is a@b.com" }]
      interestScore := JsNum.num 9 }

/-- Witness for C2's amended theorem at a concrete capturing run. -/
theorem C2_amended_witness :
    (run benignOutcomes C2wState).final.collectingContact = false :=
  C2_amended_capture_run benignOutcomes C2wState (by decide) (by decide)

end LeadBot
